import Mathlib

/-!
Verification of the hospital-management services (patient-api, appointment-api)
against their specification: a shallow embedding of the two Flask services and
the shared SQL Server database they operate on, followed by theorems settling
the spec's claims.
-/

namespace Hospital

/-- A row of the `patients` table.  The DDL (`CREATE TABLE patients`) declares
`name VARCHAR(255)` and `age INT` with no `NOT NULL`, so both columns are
nullable; `id INT IDENTITY(1,1) PRIMARY KEY` is server-generated. -/
structure PatientRow where
  id : Nat
  name : Option String
  age : Option Int
deriving DecidableEq, Repr

/-- The `patients` table together with its identity seed: `IDENTITY(1,1)`
starts at 1 and increments by 1, so `nextId` is the id the next insert
receives. -/
structure PatientsTable where
  rows : List PatientRow
  nextId : Nat
deriving DecidableEq, Repr

/-- Well-formedness maintained by the identity column: every stored id was
assigned by a previous insert, hence lies below the current seed. -/
def PatientsTable.wf (t : PatientsTable) : Prop :=
  ∀ r ∈ t.rows, r.id < t.nextId

/-- A SQL Server `DATE` value as stored in the `appointments.date` column. -/
structure SqlDate where
  year : Nat
  month : Nat
  day : Nat
deriving DecidableEq, Repr

/-- A SQL Server `TIME` value (to second precision) as stored in the
`appointments.time` column. -/
structure SqlTime where
  hour : Nat
  minute : Nat
  second : Nat
deriving DecidableEq, Repr

/-- A row of the `appointments` table.  The DDL declares `patient_id INT`,
`doctor VARCHAR(255)`, `date DATE`, `time TIME`, all without `NOT NULL`
(nullable), and no FOREIGN KEY on `patient_id`; `id` is `IDENTITY(1,1)`. -/
structure ApptRow where
  id : Nat
  patient_id : Option Int
  doctor : Option String
  date : Option SqlDate
  time : Option SqlTime
deriving DecidableEq, Repr

/-- The `appointments` table with its identity seed. -/
structure ApptTable where
  rows : List ApptRow
  nextId : Nat
deriving DecidableEq, Repr

/-- The shared `hospital` database, plus whether the server is reachable at
connection time (`pyodbc.connect` succeeds iff `reachable`). -/
structure Db where
  reachable : Bool
  patients : PatientsTable
  appointments : ApptTable
deriving DecidableEq, Repr

/-- Failures that propagate out of a handler uncaught: `connectionFailure`
when `pyodbc.connect` raises because the database is unreachable, and
`conversionFailed` when the database rejects a statement because a bound
string cannot be converted to the column's DATE/TIME type.  Flask turns
either uncaught exception into a generic 500 error response. -/
inductive DbError where
  | connectionFailure
  | conversionFailed
deriving DecidableEq, Repr

/-- A live pyodbc connection: the database state it operates on plus the
connection-scoped `@@IDENTITY` value (NULL until this connection inserts). -/
structure Conn where
  db : Db
  lastIdentity : Option Nat
deriving DecidableEq, Repr

/-- `get_db_connection()`: `pyodbc.connect` fails when the database is
unreachable; a fresh connection has performed no insert yet. -/
def get_db_connection (db : Db) : Except DbError Conn :=
  if db.reachable then .ok { db := db, lastIdentity := none }
  else .error .connectionFailure

/-! Patient service (src/patient-api/app.py). -/

/-- JSON body of `POST /patients` as read by `add_patient`: `data.get`
yields `None` (here `none`) for an absent key. -/
structure PatientReq where
  name : Option String
  age : Option Int
deriving DecidableEq, Repr

/-- Response body of `add_patient`: `{'id': patient_id, 'name': name,
'age': age}` where `patient_id` is the fetched `@@IDENTITY` value. -/
structure PatientCreateResp where
  id : Option Nat
  name : Option String
  age : Option Int
deriving DecidableEq, Repr

/-- Executing `INSERT INTO patients (name, age) VALUES (?, ?)` on a
connection: the identity column assigns `nextId`, the row is appended in
insertion order, the seed advances, and the connection's `@@IDENTITY`
becomes the assigned id. -/
def Conn.insertPatient (c : Conn) (name : Option String) (age : Option Int) : Conn :=
  let t := c.db.patients
  let row : PatientRow := { id := t.nextId, name := name, age := age }
  let t2 : PatientsTable := { rows := t.rows ++ [row], nextId := t.nextId + 1 }
  { db := { c.db with patients := t2 }, lastIdentity := some t.nextId }

/-- Handler `get_patients` (`GET /patients`): opens a connection, runs
`SELECT * FROM patients`, and serializes each row to
`{'id': row[0], 'name': row[1], 'age': row[2]}`; Flask `jsonify` responds
with status 200.  A connection failure propagates uncaught. -/
def get_patients (db : Db) : Except DbError (List PatientRow × Nat) :=
  match get_db_connection db with
  | .error e => .error e
  | .ok conn =>
      .ok (conn.db.patients.rows.map
            (fun row => { id := row.id, name := row.name, age := row.age }), 200)

/-- Handler `add_patient` (`POST /patients`): reads `name` and `age` from the
JSON body (absent keys become NULL), opens a connection, inserts, commits,
fetches `SELECT @@IDENTITY`, and responds 200 with the id and the inputs as
given. -/
def add_patient (db : Db) (data : PatientReq) : Except DbError (Db × PatientCreateResp × Nat) :=
  match get_db_connection db with
  | .error e => .error e
  | .ok conn =>
      let conn := conn.insertPatient data.name data.age
      let patient_id := conn.lastIdentity
      .ok (conn.db, { id := patient_id, name := data.name, age := data.age }, 200)

/-! Appointment service (src/appointment-api/app.py). -/

/-- JSON body of `POST /appointments`: all four fields optional
(`data.get` yields `none` when absent); `date` and `time` arrive as raw
strings. -/
structure ApptReq where
  patient_id : Option Int
  doctor : Option String
  date : Option String
  time : Option String
deriving DecidableEq, Repr

/-- Response body of `add_appointment`: the fetched `@@IDENTITY` plus the
four request values echoed exactly as supplied (raw strings, no
normalization). -/
structure ApptCreateResp where
  id : Option Nat
  patient_id : Option Int
  doctor : Option String
  date : Option String
  time : Option String
deriving DecidableEq, Repr

/-- An element of the `get_appointments` response:
`{'id', 'patient_id', 'doctor', 'date', 'time'}` with `date`/`time` as the
CONVERT-normalized strings (NULL stays NULL). -/
structure ApptListItem where
  id : Nat
  patient_id : Option Int
  doctor : Option String
  date : Option String
  time : Option String
deriving DecidableEq, Repr

/-- Parse one decimal digit character. -/
def digit (c : Char) : Option Nat :=
  if c.isDigit then some (c.toNat - 48) else none

/-- Parse two decimal digit characters as a two-digit number. -/
def twoDigits (a b : Char) : Option Nat := do
  let x ← digit a
  let y ← digit b
  pure (10 * x + y)

/-- Parse four decimal digit characters as a four-digit number. -/
def fourDigits (a b c d : Char) : Option Nat := do
  let x ← twoDigits a b
  let y ← twoDigits c d
  pure (100 * x + y)

/-- SQL Server implicit conversion of a bound character string to `DATE`,
restricted to the ISO form `yyyy-mm-dd` used throughout this repository.
Anything else (out-of-range fields included) makes the statement fail. -/
def parseSqlDate (s : String) : Option SqlDate :=
  match s.data with
  | [a, b, c, d, s1, e, f, s2, g, h] =>
      if s1 = '-' ∧ s2 = '-' then
        match fourDigits a b c d, twoDigits e f, twoDigits g h with
        | some y, some mo, some dy =>
            if 1 ≤ y ∧ y ≤ 9999 ∧ 1 ≤ mo ∧ mo ≤ 12 ∧ 1 ≤ dy ∧ dy ≤ 31 then
              some { year := y, month := mo, day := dy }
            else none
        | _, _, _ => none
      else none
  | _ => none

/-- SQL Server implicit conversion of a bound character string to `TIME`,
restricted to the forms `hh:mm` and `hh:mm:ss` (both accepted by the
server).  Anything else makes the statement fail. -/
def parseSqlTime (s : String) : Option SqlTime :=
  match s.data with
  | [a, b, s1, c, d] =>
      if s1 = ':' then
        match twoDigits a b, twoDigits c d with
        | some hh, some mm =>
            if hh ≤ 23 ∧ mm ≤ 59 then some { hour := hh, minute := mm, second := 0 }
            else none
        | _, _ => none
      else none
  | [a, b, s1, c, d, s2, e, f] =>
      if s1 = ':' ∧ s2 = ':' then
        match twoDigits a b, twoDigits c d, twoDigits e f with
        | some hh, some mm, some ss =>
            if hh ≤ 23 ∧ mm ≤ 59 ∧ ss ≤ 59 then
              some { hour := hh, minute := mm, second := ss }
            else none
        | _, _, _ => none
      else none
  | _ => none

/-- Binding a nullable `DATE` parameter: NULL passes through unchanged; a
string undergoes implicit conversion, and a failed conversion aborts the
statement with an uncaught database error. -/
def bindDate : Option String → Except DbError (Option SqlDate)
  | none => .ok none
  | some s =>
      match parseSqlDate s with
      | some d => .ok (some d)
      | none => .error .conversionFailed

/-- Binding a nullable `TIME` parameter, as `bindDate`. -/
def bindTime : Option String → Except DbError (Option SqlTime)
  | none => .ok none
  | some s =>
      match parseSqlTime s with
      | some t => .ok (some t)
      | none => .error .conversionFailed

/-- The decimal digit character for `n mod 10`. -/
def digitChar10 (n : Nat) : Char := Char.ofNat (48 + n % 10)

/-- Fixed-width zero-padded decimal rendering: the low `w` decimal digits
of `n`, exactly as the fixed-width CONVERT styles print date/time fields
(every `DATE`/`TIME` field fits its width). -/
def padDigits : Nat → Nat → List Char
  | 0, _ => []
  | w + 1, n => padDigits w (n / 10) ++ [digitChar10 n]

/-- `CONVERT(VARCHAR(10), date, 120)`: style 120 renders the date part as
`yyyy-mm-dd`, which already fills the ten characters. -/
def convertDate120 (d : SqlDate) : String :=
  String.mk (padDigits 4 d.year ++ ['-'] ++ padDigits 2 d.month ++ ['-'] ++ padDigits 2 d.day)

/-- `CONVERT(VARCHAR(5), time, 108)`: style 108 renders `hh:mm:ss` and the
cast to `VARCHAR(5)` keeps only the first five characters, `hh:mm`. -/
def convertTime108 (t : SqlTime) : String :=
  String.mk ((padDigits 2 t.hour ++ [':'] ++ padDigits 2 t.minute ++ [':'] ++
    padDigits 2 t.second).take 5)

/-- Handler `get_appointments` (`GET /appointments`): opens a connection,
selects all rows with the two CONVERT projections applied to `date` and
`time` (CONVERT of NULL is NULL), serializes each row, and responds 200. -/
def get_appointments (db : Db) : Except DbError (List ApptListItem × Nat) :=
  match get_db_connection db with
  | .error e => .error e
  | .ok conn =>
      .ok (conn.db.appointments.rows.map
            (fun row => { id := row.id, patient_id := row.patient_id,
                          doctor := row.doctor,
                          date := row.date.map convertDate120,
                          time := row.time.map convertTime108 }), 200)

/-- Response body of the appointment service `health` handler. -/
structure HealthResp where
  status : String
deriving DecidableEq, Repr

/-- Handler `health` (`GET /health`, appointment service only): returns the
constant body `{'status': 'healthy'}` with status 200.  It takes no database
state and opens no connection. -/
def health : HealthResp × Nat := ({ status := "healthy" }, 200)

/-- Executing `INSERT INTO appointments (patient_id, doctor, date, time)
VALUES (?, ?, ?, ?)` on a connection: assigns the identity id, appends the
row, advances the seed, and sets `@@IDENTITY`.  No referential check on
`patient_id` exists (the DDL declares no FOREIGN KEY). -/
def Conn.insertAppointment (c : Conn) (pid : Option Int) (doctor : Option String)
    (d : Option SqlDate) (t : Option SqlTime) : Conn :=
  let tb := c.db.appointments
  let row : ApptRow :=
    { id := tb.nextId, patient_id := pid, doctor := doctor, date := d, time := t }
  let tb2 : ApptTable := { rows := tb.rows ++ [row], nextId := tb.nextId + 1 }
  { db := { c.db with appointments := tb2 }, lastIdentity := some tb.nextId }

/-- Handler `add_appointment` (`POST /appointments`): reads the four fields
from the JSON body, opens a connection, inserts (binding `date` and `time`
through implicit conversion), commits, fetches `SELECT @@IDENTITY`, and
responds 200 echoing the request values exactly as supplied. -/
def add_appointment (db : Db) (data : ApptReq) : Except DbError (Db × ApptCreateResp × Nat) :=
  match get_db_connection db with
  | .error e => .error e
  | .ok conn =>
      match bindDate data.date, bindTime data.time with
      | .ok d, .ok t =>
          let conn := conn.insertAppointment data.patient_id data.doctor d t
          let appointment_id := conn.lastIdentity
          .ok (conn.db, { id := appointment_id, patient_id := data.patient_id,
                          doctor := data.doctor, date := data.date, time := data.time }, 200)
      | .error e, _ => .error e
      | .ok _, .error e => .error e

/-! Route tables and deployment probe paths. -/

/-- The (method, path) routes registered by the patient service source:
only `GET /patients` and `POST /patients` carry an `app.route` decorator.
No `/health` route exists in src/patient-api/app.py. -/
def patientRoutes : List (String × String) :=
  [("GET", "/patients"), ("POST", "/patients")]

/-- The (method, path) routes registered by the appointment service source. -/
def appointmentRoutes : List (String × String) :=
  [("GET", "/appointments"), ("GET", "/health"), ("POST", "/appointments")]

/-- Flask dispatch: a request matches iff its (method, path) is registered;
otherwise Flask answers 404 Not Found. -/
def hasRoute (routes : List (String × String)) (m p : String) : Bool :=
  routes.contains (m, p)

/-- The liveness/readiness probe path that the repository's own deployment
code (src/pulumi/apps.py) declares for the patient API chart on port 3000. -/
def patientApiProbePath : String := "/health"

/-- The probe path src/pulumi/apps.py declares for the appointment API chart. -/
def appointmentApiProbePath : String := "/health"

/-! Connection-event traces.  Each handler's trace records, in order, the
connection lifecycle its body performs: `with get_db_connection() as conn`
acquires; statements execute; the with-block commits; and the connection
object is finalized (closed) when the handler frame exits — on the normal
return path and on the exception path alike — before the response leaves
the handler.  When `pyodbc.connect` itself fails, no connection ever
exists, so the trace is empty. -/

/-- One connection lifecycle event. -/
inductive ConnEvent where
  | acquire
  | exec (sql : String)
  | commit
  | release
deriving DecidableEq, Repr

/-- Trace of `get_patients`. -/
def get_patients_events (db : Db) : List ConnEvent :=
  if db.reachable then
    [.acquire, .exec "SELECT * FROM patients", .release]
  else []

/-- Trace of `add_patient`. -/
def add_patient_events (db : Db) : List ConnEvent :=
  if db.reachable then
    [.acquire, .exec "INSERT INTO patients (name, age) VALUES (?, ?)", .commit,
     .exec "SELECT @@IDENTITY", .release]
  else []

/-- Trace of `get_appointments`. -/
def get_appointments_events (db : Db) : List ConnEvent :=
  if db.reachable then
    [.acquire, .exec "SELECT id, patient_id, doctor, date, time FROM appointments", .release]
  else []

/-- Trace of `add_appointment`: when a bound date/time string fails
conversion the INSERT raises, the with-block exits on the exception path,
and the connection is still finalized at frame teardown. -/
def add_appointment_events (db : Db) (data : ApptReq) : List ConnEvent :=
  if db.reachable then
    match bindDate data.date, bindTime data.time with
    | .ok _, .ok _ =>
        [.acquire,
         .exec "INSERT INTO appointments (patient_id, doctor, date, time) VALUES (?, ?, ?, ?)",
         .commit, .exec "SELECT @@IDENTITY", .release]
    | _, _ =>
        [.acquire,
         .exec "INSERT INTO appointments (patient_id, doctor, date, time) VALUES (?, ?, ?, ?)",
         .release]
  else []

/-- Trace of `health`: no connection at all. -/
def health_events : List ConnEvent := []

/-- Connections opened minus connections closed over a trace. -/
def netOpen (tr : List ConnEvent) : Int :=
  (tr.map (fun e => match e with
    | .acquire => (1 : Int)
    | .release => (-1 : Int)
    | _ => 0)).sum

/-- Scoped connection use: by the end of the trace every acquired
connection has been released (nothing outlives the handler), no release
precedes its acquisition, and a nonempty trace starts by acquiring and
ends by releasing. -/
def wellScoped (tr : List ConnEvent) : Bool :=
  netOpen tr == 0 &&
  (List.range (tr.length + 1)).all (fun n => decide (0 ≤ netOpen (tr.take n))) &&
  (tr.isEmpty || (tr.head? == some .acquire && tr.getLast? == some .release))

/-! The regular expressions named by the specification, as decidable
predicates on strings: the claim's date pattern is ten characters
`dddd-dd-dd` and its time pattern five characters `dd:dd`, `d` a digit. -/

/-- Decides the spec's date pattern (anchored `\d\d\d\d-\d\d-\d\d`). -/
def matchesDateRegex (s : String) : Bool :=
  match s.data with
  | [a, b, c, d, s1, e, f, s2, g, h] =>
      a.isDigit && b.isDigit && c.isDigit && d.isDigit && s1 == '-' &&
      e.isDigit && f.isDigit && s2 == '-' && g.isDigit && h.isDigit
  | _ => false

/-- Decides the spec's time pattern (anchored `\d\d:\d\d`). -/
def matchesTimeRegex (s : String) : Bool :=
  match s.data with
  | [a, b, s1, c, d] =>
      a.isDigit && b.isDigit && s1 == ':' && c.isDigit && d.isDigit
  | _ => false

/-! Concrete states and requests used by witnesses and counterexamples. -/

/-- A reachable database whose tables are empty with identity seed 1, the
state right after the startup DDL creates both tables. -/
def db0 : Db :=
  { reachable := true,
    patients := { rows := [], nextId := 1 },
    appointments := { rows := [], nextId := 1 } }

/-- An unreachable database. -/
def dbDown : Db :=
  { reachable := false,
    patients := { rows := [], nextId := 1 },
    appointments := { rows := [], nextId := 1 } }

/-- A valid appointment creation request whose time string carries seconds
(`14:30:00` is a valid SQL Server TIME literal). -/
def req9 : ApptReq :=
  { patient_id := some 1, doctor := some "Dr. Smith",
    date := some "2024-03-15", time := some "14:30:00" }

/-! Evaluation lemmas shared by the claim theorems. -/

/-- The row `add_patient` inserts for a given request. -/
def insertedPatient (db : Db) (data : PatientReq) : PatientRow :=
  { id := db.patients.nextId, name := data.name, age := data.age }

/-- The database state after a successful `add_patient`. -/
def dbAfterAddPatient (db : Db) (data : PatientReq) : Db :=
  let t2 : PatientsTable :=
    { rows := db.patients.rows ++ [insertedPatient db data],
      nextId := db.patients.nextId + 1 }
  { db with patients := t2 }

/-- The response body of a successful `add_patient`. -/
def addPatientResp (db : Db) (data : PatientReq) : PatientCreateResp :=
  { id := some db.patients.nextId, name := data.name, age := data.age }

theorem get_patients_eq (db : Db) (h : db.reachable = true) :
    get_patients db = .ok (db.patients.rows, 200) := by
  have hmap : (fun row : PatientRow =>
      ({ id := row.id, name := row.name, age := row.age } : PatientRow)) = id := by
    funext r; rfl
  simp [get_patients, get_db_connection, h, hmap]

theorem add_patient_eq (db : Db) (data : PatientReq) (h : db.reachable = true) :
    add_patient db data = .ok (dbAfterAddPatient db data, addPatientResp db data, 200) := by
  simp [add_patient, get_db_connection, h, Conn.insertPatient,
    dbAfterAddPatient, insertedPatient, addPatientResp]

/-- Claim C1: for every prior table state and valid (name, age) pair,
`add_patient` followed by `get_patients` yields exactly the prior records
plus one new record whose name and age equal the inputs and whose id
differs from the id of every previously present record. -/
theorem C1_create_then_list (db : Db) (n : String) (a : Int)
    (hconn : db.reachable = true) (hwf : db.patients.wf) :
    ∃ db2 resp rows2,
      add_patient db { name := some n, age := some a } = .ok (db2, resp, 200) ∧
      get_patients db2 = .ok (rows2, 200) ∧
      ∃ newRow,
        rows2 = db.patients.rows ++ [newRow] ∧
        newRow.name = some n ∧ newRow.age = some a ∧
        newRow ∉ db.patients.rows ∧
        ∀ r ∈ db.patients.rows, r.id ≠ newRow.id := by
  refine ⟨_, _, _, add_patient_eq db { name := some n, age := some a } hconn,
    get_patients_eq _ hconn, insertedPatient db { name := some n, age := some a },
    rfl, rfl, rfl, ?_, ?_⟩
  · intro hmem
    have hlt := hwf _ hmem
    simp [insertedPatient] at hlt
  · intro r hr
    have hlt := hwf r hr
    simp only [insertedPatient]
    omega

/-- Claim C1 witness at the empty reachable database and ("Jane Doe", 34). -/
theorem C1_create_then_list_witness :
    (db0.reachable = true ∧ db0.patients.wf) ∧
    (∃ db2 resp rows2,
      add_patient db0 { name := some "Jane Doe", age := some 34 } = .ok (db2, resp, 200) ∧
      get_patients db2 = .ok (rows2, 200) ∧
      ∃ newRow,
        rows2 = db0.patients.rows ++ [newRow] ∧
        newRow.name = some "Jane Doe" ∧ newRow.age = some 34 ∧
        newRow ∉ db0.patients.rows ∧
        ∀ r ∈ db0.patients.rows, r.id ≠ newRow.id) :=
  ⟨⟨rfl, by simp [PatientsTable.wf, db0]⟩,
   C1_create_then_list db0 "Jane Doe" 34 rfl (by simp [PatientsTable.wf, db0])⟩

/-- Claim C4: for every (name, age) input, `add_patient` inserts exactly one
new row, the returned id is the database-assigned identity fetched via
`@@IDENTITY`, and the response carries name and age equal to the inputs as
given. -/
theorem C4_add_patient_contract (db : Db) (data : PatientReq)
    (h : db.reachable = true) :
    add_patient db data =
      .ok (dbAfterAddPatient db data,
           { id := some db.patients.nextId, name := data.name, age := data.age }, 200) :=
  add_patient_eq db data h

/-- Claim C4 witness at the fresh database and ("Jane Doe", 34): the
response is exactly the spec's example. -/
theorem C4_add_patient_contract_witness :
    db0.reachable = true ∧
    add_patient db0 { name := some "Jane Doe", age := some 34 } =
      .ok (dbAfterAddPatient db0 { name := some "Jane Doe", age := some 34 },
           { id := some 1, name := some "Jane Doe", age := some 34 }, 200) :=
  ⟨rfl, C4_add_patient_contract db0 { name := some "Jane Doe", age := some 34 } rfl⟩

/-- Claim C5: `get_patients` returns every row of the table, one element
per row with fields id, name, age, unfiltered and untruncated, with status
200; on an empty table it returns the empty sequence with 200, not an
error. -/
theorem C5_get_patients_returns_all (db : Db) (h : db.reachable = true) :
    get_patients db = .ok (db.patients.rows, 200) ∧
    (db.patients.rows = [] → get_patients db = .ok ([], 200)) := by
  refine ⟨get_patients_eq db h, fun he => ?_⟩
  rw [get_patients_eq db h, he]

/-- Claim C5 witness at the empty reachable database. -/
theorem C5_get_patients_returns_all_witness :
    db0.reachable = true ∧ get_patients db0 = .ok ([], 200) :=
  ⟨rfl, (C5_get_patients_returns_all db0 rfl).2 rfl⟩

/-- Claim C7: when the database connection cannot be established, every
list and create handler of both services propagates the connection failure
as an error response and never returns success. -/
theorem C7_connection_failure (db : Db) (pdata : PatientReq) (adata : ApptReq)
    (h : db.reachable = false) :
    get_patients db = .error .connectionFailure ∧
    add_patient db pdata = .error .connectionFailure ∧
    get_appointments db = .error .connectionFailure ∧
    add_appointment db adata = .error .connectionFailure := by
  simp [get_patients, add_patient, get_appointments, add_appointment,
    get_db_connection, h]

/-- Claim C7 witness at the unreachable database. -/
theorem C7_connection_failure_witness :
    dbDown.reachable = false ∧
    (get_patients dbDown = .error .connectionFailure ∧
     add_patient dbDown { name := none, age := none } = .error .connectionFailure ∧
     get_appointments dbDown = .error .connectionFailure ∧
     add_appointment dbDown { patient_id := none, doctor := none, date := none, time := none } =
       .error .connectionFailure) :=
  ⟨rfl, C7_connection_failure dbDown
    { name := none, age := none }
    { patient_id := none, doctor := none, date := none, time := none } rfl⟩

/-! Appointment-side evaluation lemmas and concrete states. -/

/-- The row `add_appointment` inserts for given bound values. -/
def insertedAppt (db : Db) (pid : Option Int) (doc : Option String)
    (d : Option SqlDate) (t : Option SqlTime) : ApptRow :=
  { id := db.appointments.nextId, patient_id := pid, doctor := doc, date := d, time := t }

/-- The database state after a successful `add_appointment`. -/
def dbAfterAddAppt (db : Db) (pid : Option Int) (doc : Option String)
    (d : Option SqlDate) (t : Option SqlTime) : Db :=
  let tb2 : ApptTable :=
    { rows := db.appointments.rows ++ [insertedAppt db pid doc d t],
      nextId := db.appointments.nextId + 1 }
  { db with appointments := tb2 }

/-- The serialization `get_appointments` applies to one stored row. -/
def apptListItem (r : ApptRow) : ApptListItem :=
  { id := r.id, patient_id := r.patient_id, doctor := r.doctor,
    date := r.date.map convertDate120, time := r.time.map convertTime108 }

theorem get_appointments_eq (db : Db) (h : db.reachable = true) :
    get_appointments db = .ok (db.appointments.rows.map apptListItem, 200) := by
  simp [get_appointments, get_db_connection, h, apptListItem]

theorem add_appointment_eq (db : Db) (data : ApptReq) (d : Option SqlDate)
    (t : Option SqlTime) (h : db.reachable = true)
    (hd : bindDate data.date = .ok d) (ht : bindTime data.time = .ok t) :
    add_appointment db data =
      .ok (dbAfterAddAppt db data.patient_id data.doctor d t,
           { id := some db.appointments.nextId, patient_id := data.patient_id,
             doctor := data.doctor, date := data.date, time := data.time }, 200) := by
  simp [add_appointment, get_db_connection, h, hd, ht, Conn.insertAppointment,
    dbAfterAddAppt, insertedAppt]

/-- The appointment row stored for the request `req9`. -/
def appt9 : ApptRow :=
  { id := 1, patient_id := some 1, doctor := some "Dr. Smith",
    date := some { year := 2024, month := 3, day := 15 },
    time := some { hour := 14, minute := 30, second := 0 } }

/-- The database state after `add_appointment db0 req9`. -/
def db9 : Db :=
  { reachable := true, patients := { rows := [], nextId := 1 },
    appointments := { rows := [appt9], nextId := 2 } }

/-- The create response for `req9`: raw strings echoed, seconds included. -/
def resp9 : ApptCreateResp :=
  { id := some 1, patient_id := some 1, doctor := some "Dr. Smith",
    date := some "2024-03-15", time := some "14:30:00" }

/-- The list item for the stored row `appt9`: CONVERT-normalized strings. -/
def item9 : ApptListItem :=
  { id := 1, patient_id := some 1, doctor := some "Dr. Smith",
    date := some "2024-03-15", time := some "14:30" }

theorem add_appointment_db0_req9 :
    add_appointment db0 req9 = .ok (db9, resp9, 200) := rfl

theorem get_appointments_db9 :
    get_appointments db9 = .ok ([item9], 200) := rfl

/-- Claim C6: `add_appointment` performs no check that patient_id names an
existing patient: even when no patient row carries that id, creation
succeeds with 200 and the record is listed afterwards. -/
theorem C6_no_referential_check (db : Db) (pid : Int) (doc ds ts : String)
    (d : SqlDate) (t : SqlTime) (hconn : db.reachable = true)
    (hd : parseSqlDate ds = some d) (ht : parseSqlTime ts = some t)
    (_habsent : ∀ r ∈ db.patients.rows, (r.id : Int) ≠ pid) :
    ∃ db2,
      add_appointment db
          { patient_id := some pid, doctor := some doc, date := some ds, time := some ts } =
        .ok (db2, { id := some db.appointments.nextId, patient_id := some pid,
                    doctor := some doc, date := some ds, time := some ts }, 200) ∧
      ∃ items, get_appointments db2 = .ok (items, 200) ∧
        apptListItem (insertedAppt db (some pid) (some doc) (some d) (some t)) ∈ items := by
  have hbd : bindDate (some ds) = .ok (some d) := by simp [bindDate, hd]
  have hbt : bindTime (some ts) = .ok (some t) := by simp [bindTime, ht]
  refine ⟨_, add_appointment_eq db _ (some d) (some t) hconn hbd hbt,
    _, get_appointments_eq _ hconn, ?_⟩
  simp [dbAfterAddAppt]

/-- Claim C6 witness: the empty database holds no patient with id 1, yet
creating an appointment for patient 1 succeeds and is listed. -/
theorem C6_no_referential_check_witness :
    (db0.reachable = true ∧
     parseSqlDate "2024-03-15" = some { year := 2024, month := 3, day := 15 } ∧
     parseSqlTime "14:30" = some { hour := 14, minute := 30, second := 0 } ∧
     (∀ r ∈ db0.patients.rows, (r.id : Int) ≠ 1)) ∧
    (∃ db2,
      add_appointment db0
          { patient_id := some 1, doctor := some "Dr. Smith",
            date := some "2024-03-15", time := some "14:30" } =
        .ok (db2, { id := some db0.appointments.nextId, patient_id := some 1,
                    doctor := some "Dr. Smith", date := some "2024-03-15",
                    time := some "14:30" }, 200) ∧
      ∃ items, get_appointments db2 = .ok (items, 200) ∧
        apptListItem (insertedAppt db0 (some 1) (some "Dr. Smith")
          (some { year := 2024, month := 3, day := 15 })
          (some { hour := 14, minute := 30, second := 0 })) ∈ items) :=
  ⟨⟨rfl, by decide, by decide, by simp [db0]⟩,
   C6_no_referential_check db0 1 "Dr. Smith" "2024-03-15" "14:30"
     { year := 2024, month := 3, day := 15 } { hour := 14, minute := 30, second := 0 }
     rfl (by decide) (by decide) (by simp [db0])⟩

/-- Claim C9: every successful `add_appointment` response echoes
patient_id, doctor, date and time exactly as supplied with no
normalization, and with input time "14:30:00" the same stored record
carries time "14:30:00" in the create response but "14:30" in the
subsequent `get_appointments` response. -/
theorem C9_create_echoes_raw (db : Db) (data : ApptReq) (db2 : Db)
    (resp : ApptCreateResp) (st : Nat)
    (hok : add_appointment db data = .ok (db2, resp, st)) :
    (resp.patient_id = data.patient_id ∧ resp.doctor = data.doctor ∧
     resp.date = data.date ∧ resp.time = data.time) ∧
    (add_appointment db0 req9 = .ok (db9, resp9, 200) ∧
     resp9.time = some "14:30:00" ∧
     get_appointments db9 = .ok ([item9], 200) ∧ item9.time = some "14:30") := by
  refine ⟨?_, add_appointment_db0_req9, rfl, get_appointments_db9, rfl⟩
  unfold add_appointment at hok
  cases hc : get_db_connection db with
  | error e => rw [hc] at hok; cases hok
  | ok conn =>
      rw [hc] at hok
      cases hbd : bindDate data.date with
      | error e => simp [hbd] at hok
      | ok d =>
          cases hbt : bindTime data.time with
          | error e => simp [hbd, hbt] at hok
          | ok t =>
              simp [hbd, hbt] at hok
              obtain ⟨-, hresp, -⟩ := hok
              rw [← hresp]
              exact ⟨rfl, rfl, rfl, rfl⟩

/-- Claim C9 witness at the concrete request with seconds in the time. -/
theorem C9_create_echoes_raw_witness :
    add_appointment db0 req9 = .ok (db9, resp9, 200) ∧
    (resp9.patient_id = req9.patient_id ∧ resp9.doctor = req9.doctor ∧
     resp9.date = req9.date ∧ resp9.time = req9.time) :=
  ⟨add_appointment_db0_req9,
   (C9_create_echoes_raw db0 req9 db9 resp9 200 add_appointment_db0_req9).1⟩

/-- Claim C10: a create request in which any field is absent still
succeeds with status 200 and inserts NULL for each missing column, in both
services: the patient half holds for every body (absent name or age
included), and the appointment half for every body with at least one of
patient_id, doctor, date, time absent whose present date/time strings the
database accepts — the tables declare no NOT NULL constraint, so the
database-layer rejection branch is not reached for merely-missing
fields. -/
theorem C10_missing_fields_insert_null (db : Db) (pdata : PatientReq)
    (adata : ApptReq) (d : Option SqlDate) (t : Option SqlTime)
    (hconn : db.reachable = true)
    (hbd : bindDate adata.date = .ok d) (hbt : bindTime adata.time = .ok t)
    (_habs : adata.patient_id = none ∨ adata.doctor = none ∨
             adata.date = none ∨ adata.time = none) :
    (∃ db2, add_patient db pdata =
        .ok (db2, { id := some db.patients.nextId,
                    name := pdata.name, age := pdata.age }, 200) ∧
      insertedPatient db pdata ∈ db2.patients.rows) ∧
    (∃ db2, add_appointment db adata =
        .ok (db2, { id := some db.appointments.nextId,
                    patient_id := adata.patient_id, doctor := adata.doctor,
                    date := adata.date, time := adata.time }, 200) ∧
      insertedAppt db adata.patient_id adata.doctor d t ∈ db2.appointments.rows ∧
      (adata.date = none → d = none) ∧ (adata.time = none → t = none)) := by
  refine ⟨⟨_, add_patient_eq db pdata hconn, ?_⟩,
    dbAfterAddAppt db adata.patient_id adata.doctor d t,
    add_appointment_eq db adata d t hconn hbd hbt, ?_, ?_, ?_⟩
  · show insertedPatient db pdata ∈ db.patients.rows ++ [insertedPatient db pdata]
    simp
  · show insertedAppt db adata.patient_id adata.doctor d t ∈
      db.appointments.rows ++ [insertedAppt db adata.patient_id adata.doctor d t]
    simp
  · intro h0
    rw [h0] at hbd
    simp [bindDate] at hbd
    exact hbd.symm
  · intro h0
    rw [h0] at hbt
    simp [bindTime] at hbt
    exact hbt.symm

/-- Claim C10 witness: a patient body with name absent and an appointment
body with only patient_id absent, valid date and time present. -/
theorem C10_missing_fields_insert_null_witness :
    (db0.reachable = true ∧
     bindDate (some "2024-03-15") = .ok (some { year := 2024, month := 3, day := 15 }) ∧
     bindTime (some "14:30") = .ok (some { hour := 14, minute := 30, second := 0 }) ∧
     ((none : Option Int) = none ∨ (some "Dr. X" : Option String) = none ∨
      (some "2024-03-15" : Option String) = none ∨
      (some "14:30" : Option String) = none)) ∧
    ((∃ db2, add_patient db0 { name := none, age := some 34 } =
        .ok (db2, { id := some db0.patients.nextId, name := none, age := some 34 }, 200) ∧
      insertedPatient db0 { name := none, age := some 34 } ∈ db2.patients.rows) ∧
     (∃ db2, add_appointment db0
          { patient_id := none, doctor := some "Dr. X",
            date := some "2024-03-15", time := some "14:30" } =
        .ok (db2, { id := some db0.appointments.nextId, patient_id := none,
                    doctor := some "Dr. X", date := some "2024-03-15",
                    time := some "14:30" }, 200) ∧
      insertedAppt db0 none (some "Dr. X")
          (some { year := 2024, month := 3, day := 15 })
          (some { hour := 14, minute := 30, second := 0 }) ∈ db2.appointments.rows ∧
      ((some "2024-03-15" : Option String) = none →
        (some { year := 2024, month := 3, day := 15 } : Option SqlDate) = none) ∧
      ((some "14:30" : Option String) = none →
        (some { hour := 14, minute := 30, second := 0 } : Option SqlTime) = none))) :=
  ⟨⟨rfl, rfl, rfl, Or.inl rfl⟩,
   C10_missing_fields_insert_null db0 { name := none, age := some 34 }
     { patient_id := none, doctor := some "Dr. X",
       date := some "2024-03-15", time := some "14:30" }
     (some { year := 2024, month := 3, day := 15 })
     (some { hour := 14, minute := 30, second := 0 })
     rfl rfl rfl (Or.inl rfl)⟩

/-- Claim C3 (code evaluation): the appointment service health handler
does return the constant healthy body with 200 and opens no connection,
but the patient service registers no /health route at all — even though
the repository's own deployment code targets /health on it for liveness
and readiness probes — so Flask dispatch on the patient service finds no
route for GET /health and would answer 404, contradicting the claim for
the patient service. -/
theorem C3_health_route_evaluation :
    health = ({ status := "healthy" }, 200) ∧
    health_events = [] ∧
    hasRoute appointmentRoutes "GET" "/health" = true ∧
    patientApiProbePath = "/health" ∧
    hasRoute patientRoutes "GET" patientApiProbePath = false :=
  ⟨rfl, rfl, by decide, rfl, by decide⟩

/-! Digit lemmas for the CONVERT renderings. -/

theorem isDigit_digitChar10 (n : Nat) : (digitChar10 n).isDigit = true := by
  have h : n % 10 = 0 ∨ n % 10 = 1 ∨ n % 10 = 2 ∨ n % 10 = 3 ∨ n % 10 = 4 ∨
      n % 10 = 5 ∨ n % 10 = 6 ∨ n % 10 = 7 ∨ n % 10 = 8 ∨ n % 10 = 9 := by omega
  unfold digitChar10
  rcases h with h | h | h | h | h | h | h | h | h | h <;> rw [h] <;> decide

theorem matchesDateRegex_convert (d : SqlDate) :
    matchesDateRegex (convertDate120 d) = true := by
  simp [convertDate120, matchesDateRegex, padDigits, isDigit_digitChar10]

theorem matchesTimeRegex_convert (t : SqlTime) :
    matchesTimeRegex (convertTime108 t) = true := by
  simp [convertTime108, matchesTimeRegex, padDigits, isDigit_digitChar10]

/-- Claim C2 counterexample: the claim also asserts the pattern for the
`add_appointment` response, but that response echoes the request's raw
strings: the valid input time "14:30:00" is stored and accepted, yet the
create response carries "14:30:00", which does not match the anchored
pattern of two digits, a colon, and two digits. -/
theorem C2_counterexample :
    add_appointment db0 req9 = .ok (db9, resp9, 200) ∧
    resp9.time = some "14:30:00" ∧
    matchesTimeRegex "14:30:00" = false :=
  ⟨add_appointment_db0_req9, rfl, by decide⟩

/-- Claim C2 (amended): every non-null date string in a `get_appointments`
item matches the anchored date pattern and every non-null time string
matches the anchored time pattern, for every stored representation; the
`add_appointment` response is excluded because it echoes the raw request
strings. -/
theorem C2_listed_strings_match (db : Db) (items : List ApptListItem)
    (st : Nat) (hconn : db.reachable = true)
    (hlist : get_appointments db = .ok (items, st)) :
    ∀ item ∈ items,
      (∀ s, item.date = some s → matchesDateRegex s = true) ∧
      (∀ s, item.time = some s → matchesTimeRegex s = true) := by
  rw [get_appointments_eq db hconn] at hlist
  obtain ⟨hitems, -⟩ := Prod.mk.injEq .. ▸ (Except.ok.injEq .. ▸ hlist :
    (db.appointments.rows.map apptListItem, 200) = (items, st))
  intro item hitem
  rw [← hitems] at hitem
  obtain ⟨r, -, rfl⟩ := List.mem_map.1 hitem
  constructor
  · intro s hs
    simp only [apptListItem] at hs
    obtain ⟨dd, -, rfl⟩ := Option.map_eq_some'.1 hs
    exact matchesDateRegex_convert dd
  · intro s hs
    simp only [apptListItem] at hs
    obtain ⟨tt, -, rfl⟩ := Option.map_eq_some'.1 hs
    exact matchesTimeRegex_convert tt

/-- Claim C2 witness: the database holding the stored row for req9 lists
it with date "2024-03-15" and time "14:30", both matching. -/
theorem C2_listed_strings_match_witness :
    (db9.reachable = true ∧ get_appointments db9 = .ok ([item9], 200)) ∧
    (∀ item ∈ [item9],
      (∀ s, item.date = some s → matchesDateRegex s = true) ∧
      (∀ s, item.time = some s → matchesTimeRegex s = true)) :=
  ⟨⟨rfl, get_appointments_db9⟩,
   C2_listed_strings_match db9 [item9] 200 rfl get_appointments_db9⟩

/-- Claim C8: every handler trace of either service is well scoped: a
nonempty trace starts with the acquisition, ends with the release, never
releases more than it acquired, and leaves no connection open at handler
exit — on the success path, the conversion-failure path, and the
connection-failure path (where no connection ever exists). -/
theorem C8_handlers_well_scoped (db : Db) (adata : ApptReq) :
    wellScoped (get_patients_events db) = true ∧
    wellScoped (add_patient_events db) = true ∧
    wellScoped (get_appointments_events db) = true ∧
    wellScoped (add_appointment_events db adata) = true ∧
    wellScoped health_events = true := by
  cases hr : db.reachable with
  | false =>
      refine ⟨?_, ?_, ?_, ?_, ?_⟩ <;>
        simp only [get_patients_events, add_patient_events, get_appointments_events,
          add_appointment_events, health_events, hr, if_false, Bool.false_eq_true] <;>
        decide
  | true =>
      refine ⟨?_, ?_, ?_, ?_, ?_⟩
      · simp only [get_patients_events, hr, if_true]; decide
      · simp only [add_patient_events, hr, if_true]; decide
      · simp only [get_appointments_events, hr, if_true]; decide
      · cases hbd : bindDate adata.date <;> cases hbt : bindTime adata.time <;>
          simp only [add_appointment_events, hr, if_true, hbd, hbt] <;> decide
      · decide

end Hospital
